import Mathlib

/-!
Verification of the stall-detection early-termination callback of
`src/script/exercice7.py` (the `StallMonitor` of the specification).

The Python code works on IEEE floats where `float('inf')` is a first-class
value; we embed the numeric values as rationals extended with a single
point at infinity (`EFloat`).  `NaN` never arises on the code paths the
claims are about: the only subtraction involving two possibly-infinite
operands is `last_gap - gap`, and it is reached only after the branch
`last_gap == float('inf')` has been taken care of, so `last_gap` is finite
there; nevertheless `EFloat.subGT` is defined totally, following the IEEE
rules (`inf - inf = nan` and `nan > eps` is false, `inf - finite = inf`,
`finite - inf = -inf`).

The callback mutates a `CallbackData` object and either returns (we record
the decision `CONTINUE`) or calls `model.terminate()` (decision
`TERMINATE`).  Reading `time.time()` becomes an explicit `now` argument.
If `last_gap_change_time` were still `None` when the stall check runs, the
Python subtraction would raise `TypeError`; the embedding returns `none`
there, so `callback` has type `Option (CallbackData × Decision)`.
-/

/-- A float value as used by the callback: a rational or `+infinity`. -/
inductive EFloat where
  | inf : EFloat
  | fin : ℚ → EFloat
deriving DecidableEq

/-- The IEEE-style test `a - b > c` for possibly infinite `a`, `b` and a
finite threshold `c`: `inf - inf` is `nan` and compares false,
`inf - finite` is `inf` and compares true, `finite - inf` is `-inf` and
compares false. -/
def EFloat.subGT : EFloat → EFloat → ℚ → Bool
  | EFloat.inf, EFloat.inf, _ => false
  | EFloat.inf, EFloat.fin _, _ => true
  | EFloat.fin _, EFloat.inf, _ => false
  | EFloat.fin a, EFloat.fin b, c => decide (c < a - b)

/-- Order on `EFloat` with `inf` as the top element. -/
def EFloat.le : EFloat → EFloat → Prop
  | EFloat.inf, EFloat.inf => True
  | EFloat.fin _, EFloat.inf => True
  | EFloat.inf, EFloat.fin _ => False
  | EFloat.fin a, EFloat.fin b => a ≤ b

instance : (a b : EFloat) → Decidable (EFloat.le a b)
  | EFloat.inf, EFloat.inf => isTrue trivial
  | EFloat.fin _, EFloat.inf => isTrue trivial
  | EFloat.inf, EFloat.fin _ => isFalse (fun h => h)
  | EFloat.fin a, EFloat.fin b => inferInstanceAs (Decidable (a ≤ b))

/-- The mutable state shared between callback invocations
(`class CallbackData`, lines 8-11): `last_gap_change_time` starts as
`None`, `last_gap` starts as `float('inf')`. -/
structure CallbackData where
  last_gap_change_time : Option ℚ
  last_gap : EFloat
deriving DecidableEq

/-- `CallbackData.__init__`. -/
def CallbackData.init : CallbackData :=
  { last_gap_change_time := none, last_gap := EFloat.inf }

/-- The `where` argument of the callback: either `GRB.Callback.MIP` or any
other callback location (all treated alike by the early return). -/
inductive GWhere where
  | MIP : GWhere
  | other : GWhere
deriving DecidableEq

/-- The decision the callback takes: returning normally lets the solver
continue; calling `model.terminate()` asks it to stop. -/
inductive Decision where
  | CONTINUE : Decision
  | TERMINATE : Decision
deriving DecidableEq

/-- Stop criterion parameter, line 59: seconds without gap improvement. -/
def max_time_between_gap_updates : ℚ := 15

/-- Stop criterion parameter, line 60: minimal significant improvement. -/
def epsilon_to_compare_gap : ℚ := 1 / 10 ^ 4

/-- The values the callback reads from the model at one invocation:
`MIP_SOLCNT`, `MIP_OBJBND`, `MIP_OBJBST`. -/
structure Snapshot where
  solcount : ℤ
  best_bound : ℚ
  best_obj : ℚ
deriving DecidableEq

/-- The gap computation of lines 28-31: `gap = inf` when `best_obj == 0`,
else `abs(best_obj - best_bound) / max(1e-10, abs(best_obj))`. -/
def computeGap (best_obj best_bound : ℚ) : EFloat :=
  if best_obj = 0 then EFloat.inf
  else EFloat.fin (|best_obj - best_bound| / max (1 / 10 ^ 10) |best_obj|)

/-- The callback body (lines 15-53), as a pure function from the callback
location, the model snapshot, the current time and the prior state to the
new state and the decision.  `none` models the `TypeError` Python would
raise if the stall check ran with `last_gap_change_time = None`. -/
def callback (w : GWhere) (model : Snapshot) (now : ℚ)
    (cbdata : CallbackData) : Option (CallbackData × Decision) :=
  if w ≠ GWhere.MIP then some (cbdata, Decision.CONTINUE)
  else if model.solcount = 0 then some (cbdata, Decision.CONTINUE)
  else
    let gap := computeGap model.best_obj model.best_bound
    if cbdata.last_gap = EFloat.inf then
      some ({ last_gap_change_time := some now, last_gap := gap },
            Decision.CONTINUE)
    else if EFloat.subGT cbdata.last_gap gap epsilon_to_compare_gap then
      some ({ last_gap_change_time := some now, last_gap := gap },
            Decision.CONTINUE)
    else
      match cbdata.last_gap_change_time with
      | none => none
      | some t0 =>
          if max_time_between_gap_updates < now - t0 then
            some (cbdata, Decision.TERMINATE)
          else
            some (cbdata, Decision.CONTINUE)

/-- One invocation of the callback as recorded in a run trace. -/
structure CallInput where
  w : GWhere
  snap : Snapshot
  now : ℚ
deriving DecidableEq

/-- A whole run: the callback applied to each input in order, threading the
state; `none` as soon as one invocation would raise. -/
def runCallback : List CallInput → CallbackData → Option CallbackData
  | [], st => some st
  | i :: is, st =>
      match callback i.w i.snap i.now st with
      | none => none
      | some (st', _) => runCallback is st'

/-- The TRACKING state of the specification state machine, distinguished
from AWAITING_FIRST_SOLUTION by `lastGap` being finite (this is also the
branch test of line 35). -/
def isTracking (st : CallbackData) : Prop := st.last_gap ≠ EFloat.inf

instance (st : CallbackData) : Decidable (isTracking st) :=
  inferInstanceAs (Decidable (st.last_gap ≠ EFloat.inf))

/-- Scenario snapshot with relative gap `0.10`
(`|1 - 9/10| / max 1e-10 1 = 1/10`). -/
def scenarioSnap1 : Snapshot := { solcount := 1, best_bound := 9/10, best_obj := 1 }

/-- Scenario snapshot with relative gap `0.095`. -/
def scenarioSnap2 : Snapshot := { solcount := 1, best_bound := 181/200, best_obj := 1 }

/-- Scenario snapshot with relative gap `0.0949`. -/
def scenarioSnap3 : Snapshot := { solcount := 1, best_bound := 9051/10000, best_obj := 1 }

/-- A snapshot with relative gap `0.10`, used for stalled runs. -/
def stallSnap : Snapshot := { solcount := 1, best_bound := 9/10, best_obj := 1 }

/-! ### Helper lemmas -/

theorem EFloat.fin_ne_inf (q : ℚ) : (EFloat.fin q = EFloat.inf) = False := by
  simp only [eq_iff_iff, iff_false]
  exact fun h => EFloat.noConfusion h

theorem EFloat.subGT_fin_iff (a : ℚ) (g : EFloat) (c : ℚ) :
    EFloat.subGT (EFloat.fin a) g c = true ↔
      ∃ b, g = EFloat.fin b ∧ c < a - b := by
  cases g with
  | inf => simp [EFloat.subGT, EFloat.fin_ne_inf]
  | fin b =>
      simp only [EFloat.subGT, decide_eq_true_eq, EFloat.fin.injEq]
      constructor
      · exact fun h => ⟨b, rfl, h⟩
      · rintro ⟨b', rfl, h⟩
        exact h

theorem EFloat.le_refl : ∀ a : EFloat, EFloat.le a a
  | EFloat.inf => trivial
  | EFloat.fin _ => le_rfl

theorem EFloat.le_inf : ∀ a : EFloat, EFloat.le a EFloat.inf
  | EFloat.inf => trivial
  | EFloat.fin _ => trivial

theorem EFloat.le_trans (a b c : EFloat) (hab : EFloat.le a b)
    (hbc : EFloat.le b c) : EFloat.le a c := by
  cases a <;> cases b <;> cases c <;> simp_all [EFloat.le]
  linarith

theorem EFloat.le_of_subGT (a b : EFloat) (c : ℚ) (hc : 0 ≤ c)
    (h : EFloat.subGT a b c = true) : EFloat.le b a := by
  cases a <;> cases b <;> simp_all [EFloat.subGT, EFloat.le]
  linarith

theorem computeGap_eq_inf_iff (o b : ℚ) :
    computeGap o b = EFloat.inf ↔ o = 0 := by
  by_cases h : o = 0 <;> simp [computeGap, h, EFloat.fin_ne_inf]

/-- Branch of lines 16-17: a non-MIP callback returns at once. -/
theorem callback_not_mip (snap : Snapshot) (now : ℚ) (st : CallbackData) :
    callback GWhere.other snap now st = some (st, Decision.CONTINUE) := by
  simp [callback]

/-- Branch of lines 20-22: no feasible solution yet. -/
theorem callback_no_solution (snap : Snapshot) (now : ℚ) (st : CallbackData)
    (h : snap.solcount = 0) :
    callback GWhere.MIP snap now st = some (st, Decision.CONTINUE) := by
  simp [callback, h]

/-- Branch of lines 34-38: first solution initializes the state. -/
theorem callback_first_solution (snap : Snapshot) (now : ℚ) (st : CallbackData)
    (hsol : snap.solcount ≠ 0) (hg : st.last_gap = EFloat.inf) :
    callback GWhere.MIP snap now st =
      some ({ last_gap_change_time := some now,
              last_gap := computeGap snap.best_obj snap.best_bound },
            Decision.CONTINUE) := by
  simp [callback, hsol, hg]

/-- Branch of lines 41-44: significant improvement updates the state. -/
theorem callback_improvement (snap : Snapshot) (now g q : ℚ)
    (st : CallbackData) (hsol : snap.solcount ≠ 0)
    (hg : st.last_gap = EFloat.fin g)
    (hgap : computeGap snap.best_obj snap.best_bound = EFloat.fin q)
    (himp : epsilon_to_compare_gap < g - q) :
    callback GWhere.MIP snap now st =
      some ({ last_gap_change_time := some now, last_gap := EFloat.fin q },
            Decision.CONTINUE) := by
  simp [callback, hsol, hg, hgap, EFloat.subGT, EFloat.fin_ne_inf, himp]

/-- Branch of lines 46-53: no improvement, the stall clock decides. -/
theorem callback_no_improvement (snap : Snapshot) (now g t0 : ℚ)
    (st : CallbackData) (hsol : snap.solcount ≠ 0)
    (hg : st.last_gap = EFloat.fin g)
    (ht : st.last_gap_change_time = some t0)
    (hni : EFloat.subGT (EFloat.fin g)
      (computeGap snap.best_obj snap.best_bound) epsilon_to_compare_gap
        = false) :
    callback GWhere.MIP snap now st =
      if max_time_between_gap_updates < now - t0 then
        some (st, Decision.TERMINATE)
      else
        some (st, Decision.CONTINUE) := by
  simp [callback, hsol, hg, ht, hni, EFloat.fin_ne_inf]

/-- Branch of lines 41-44, stated on the raw comparison. -/
theorem callback_subGT_true (snap : Snapshot) (now : ℚ) (st : CallbackData)
    (hsol : snap.solcount ≠ 0) (hg : st.last_gap ≠ EFloat.inf)
    (hsub : EFloat.subGT st.last_gap
      (computeGap snap.best_obj snap.best_bound) epsilon_to_compare_gap
        = true) :
    callback GWhere.MIP snap now st =
      some ({ last_gap_change_time := some now,
              last_gap := computeGap snap.best_obj snap.best_bound },
            Decision.CONTINUE) := by
  simp [callback, hsol, hg, hsub]

/-- Branch of lines 46-53, stated on the raw comparison. -/
theorem callback_stall_check (snap : Snapshot) (now t0 : ℚ)
    (st : CallbackData) (hsol : snap.solcount ≠ 0)
    (hg : st.last_gap ≠ EFloat.inf)
    (hsub : EFloat.subGT st.last_gap
      (computeGap snap.best_obj snap.best_bound) epsilon_to_compare_gap
        = false)
    (ht : st.last_gap_change_time = some t0) :
    callback GWhere.MIP snap now st =
      if max_time_between_gap_updates < now - t0 then
        some (st, Decision.TERMINATE)
      else
        some (st, Decision.CONTINUE) := by
  simp [callback, hsol, hg, hsub, ht]

/-- Line 47 with `last_gap_change_time = None`: the Python subtraction
would raise, the embedding returns `none`. -/
theorem callback_time_none (snap : Snapshot) (now : ℚ) (st : CallbackData)
    (hsol : snap.solcount ≠ 0) (hg : st.last_gap ≠ EFloat.inf)
    (hsub : EFloat.subGT st.last_gap
      (computeGap snap.best_obj snap.best_bound) epsilon_to_compare_gap
        = false)
    (ht : st.last_gap_change_time = none) :
    callback GWhere.MIP snap now st = none := by
  simp [callback, hsol, hg, hsub, ht]

/-- Every successful invocation either leaves the state unchanged or writes
`last_gap_change_time := now` and `last_gap := computeGap ...`, the latter
only on the first-solution or improvement branches. -/
theorem callback_result (w : GWhere) (snap : Snapshot) (now : ℚ)
    (st st' : CallbackData) (d : Decision)
    (h : callback w snap now st = some (st', d)) :
    st' = st ∨
      (st' = { last_gap_change_time := some now,
               last_gap := computeGap snap.best_obj snap.best_bound } ∧
        (st.last_gap = EFloat.inf ∨
          EFloat.subGT st.last_gap
            (computeGap snap.best_obj snap.best_bound)
            epsilon_to_compare_gap = true)) := by
  simp only [callback] at h
  split at h
  · left
    simp only [Option.some.injEq, Prod.mk.injEq] at h
    exact h.1.symm
  · split at h
    · left
      simp only [Option.some.injEq, Prod.mk.injEq] at h
      exact h.1.symm
    · split at h
      · right
        simp only [Option.some.injEq, Prod.mk.injEq] at h
        exact ⟨h.1.symm, Or.inl (by assumption)⟩
      · split at h
        · right
          simp only [Option.some.injEq, Prod.mk.injEq] at h
          exact ⟨h.1.symm, Or.inr (by assumption)⟩
        · split at h
          · exact absurd h (by simp)
          · split at h
            · left
              simp only [Option.some.injEq, Prod.mk.injEq] at h
              exact h.1.symm
            · left
              simp only [Option.some.injEq, Prod.mk.injEq] at h
              exact h.1.symm

/-- One invocation never increases `last_gap`. -/
theorem callback_last_gap_le (w : GWhere) (snap : Snapshot) (now : ℚ)
    (st st' : CallbackData) (d : Decision)
    (h : callback w snap now st = some (st', d)) :
    EFloat.le st'.last_gap st.last_gap := by
  rcases callback_result w snap now st st' d h with rfl | ⟨rfl, hc | hc⟩
  · exact EFloat.le_refl _
  · rw [hc]
    exact EFloat.le_inf _
  · exact EFloat.le_of_subGT _ _ _ (by norm_num [epsilon_to_compare_gap]) hc

/-- One invocation never clears `last_gap_change_time`. -/
theorem callback_time_preserved (w : GWhere) (snap : Snapshot) (now : ℚ)
    (st st' : CallbackData) (d : Decision)
    (h : callback w snap now st = some (st', d))
    (hst : st.last_gap_change_time ≠ none) :
    st'.last_gap_change_time ≠ none := by
  rcases callback_result w snap now st st' d h with rfl | ⟨rfl, _⟩
  · exact hst
  · simp

/-- A run never clears `last_gap_change_time`. -/
theorem runCallback_time_preserved (inputs : List CallInput)
    (st st' : CallbackData) (h : runCallback inputs st = some st')
    (hst : st.last_gap_change_time ≠ none) :
    st'.last_gap_change_time ≠ none := by
  induction inputs generalizing st with
  | nil =>
      simp only [runCallback, Option.some.injEq] at h
      rw [← h]
      exact hst
  | cons i is ih =>
      simp only [runCallback] at h
      cases hc : callback i.w i.snap i.now st with
      | none => rw [hc] at h; exact absurd h (by simp)
      | some p =>
          obtain ⟨st1, d⟩ := p
          rw [hc] at h
          exact ih st1 h
            (callback_time_preserved i.w i.snap i.now st st1 d hc hst)

/-- A valid input that carries no solution leaves the pristine initial
state pristine. -/
theorem callback_init_not_pos (i : CallInput)
    (hval : 0 ≤ i.snap.solcount)
    (hnp : ¬ (i.w = GWhere.MIP ∧ 0 < i.snap.solcount)) :
    callback i.w i.snap i.now CallbackData.init =
      some (CallbackData.init, Decision.CONTINUE) := by
  cases hw : i.w with
  | other => exact callback_not_mip _ _ _
  | MIP =>
      have hz : i.snap.solcount = 0 := by
        have hnpos : ¬ 0 < i.snap.solcount := fun hpos => hnp ⟨hw, hpos⟩
        omega
      exact callback_no_solution _ _ _ hz

example : callback GWhere.MIP ⟨1, 9/10, 1⟩ 0 CallbackData.init
    = some (⟨some 0, EFloat.fin (1/10)⟩, Decision.CONTINUE) := by
  norm_num [callback, computeGap, CallbackData.init, abs_of_nonneg]

example : callback GWhere.MIP ⟨1, 19/20, 1⟩ 5 ⟨some 0, EFloat.fin (1/10)⟩
    = some (⟨some 5, EFloat.fin (1/20)⟩, Decision.CONTINUE) := by
  norm_num [callback, computeGap, EFloat.subGT, EFloat.fin_ne_inf,
    epsilon_to_compare_gap, abs_of_nonneg]

example : callback GWhere.MIP ⟨1, 9/10, 1⟩ 17 ⟨some 0, EFloat.fin (1/10)⟩
    = some (⟨some 0, EFloat.fin (1/10)⟩, Decision.TERMINATE) := by
  norm_num [callback, computeGap, EFloat.subGT, EFloat.fin_ne_inf,
    epsilon_to_compare_gap, max_time_between_gap_updates, abs_of_nonneg]

/-! ### Claims -/

/-- Claim C1: for every evaluate call in the TRACKING state (`lastGap`
finite) on a snapshot with `solutionCount > 0`: if `lastGap - gap`
exceeds the improvement threshold then the callback sets
`last_gap := gap`, `last_gap_change_time := now` and continues; otherwise,
if `now - last_gap_change_time` exceeds the stall budget it terminates;
otherwise it continues with the state unchanged.  (For a finite `lastGap`,
`lastGap - gap > threshold` holds exactly when `gap` is finite and the
rational difference exceeds the threshold.) -/
theorem callback_tracking_cases (snap : Snapshot) (now g t0 : ℚ)
    (st : CallbackData) (hsol : 0 < snap.solcount)
    (hg : st.last_gap = EFloat.fin g)
    (ht : st.last_gap_change_time = some t0) :
    ((∃ q, computeGap snap.best_obj snap.best_bound = EFloat.fin q ∧
        epsilon_to_compare_gap < g - q) →
      callback GWhere.MIP snap now st =
        some ({ last_gap_change_time := some now,
                last_gap := computeGap snap.best_obj snap.best_bound },
              Decision.CONTINUE)) ∧
    ((¬ ∃ q, computeGap snap.best_obj snap.best_bound = EFloat.fin q ∧
        epsilon_to_compare_gap < g - q) →
      max_time_between_gap_updates < now - t0 →
      callback GWhere.MIP snap now st = some (st, Decision.TERMINATE)) ∧
    ((¬ ∃ q, computeGap snap.best_obj snap.best_bound = EFloat.fin q ∧
        epsilon_to_compare_gap < g - q) →
      ¬ (max_time_between_gap_updates < now - t0) →
      callback GWhere.MIP snap now st = some (st, Decision.CONTINUE)) := by
  have hs0 : snap.solcount ≠ 0 := by omega
  have hfalse : (¬ ∃ q,
      computeGap snap.best_obj snap.best_bound = EFloat.fin q ∧
        epsilon_to_compare_gap < g - q) →
      EFloat.subGT (EFloat.fin g) (computeGap snap.best_obj snap.best_bound)
        epsilon_to_compare_gap = false := by
    intro hni
    rw [Bool.eq_false_iff]
    intro htrue
    exact hni ((EFloat.subGT_fin_iff g _ _).mp htrue)
  refine ⟨?_, ?_, ?_⟩
  · rintro ⟨q, hq, himp⟩
    rw [callback_improvement snap now g q st hs0 hg hq himp, hq]
  · intro hni hstall
    rw [callback_no_improvement snap now g t0 st hs0 hg ht (hfalse hni),
      if_pos hstall]
  · intro hni hstall
    rw [callback_no_improvement snap now g t0 st hs0 hg ht (hfalse hni),
      if_neg hstall]

theorem callback_tracking_cases_witness :
    callback GWhere.MIP ⟨1, 19/20, 1⟩ 5 ⟨some 0, EFloat.fin (1/10)⟩ =
      some (⟨some 5, EFloat.fin (1/20)⟩, Decision.CONTINUE) := by
  have h := (callback_tracking_cases ⟨1, 19/20, 1⟩ 5 (1/10) 0
      ⟨some 0, EFloat.fin (1/10)⟩ (by norm_num) rfl rfl).1
    ⟨1/20, by norm_num [computeGap, abs_of_nonneg],
      by norm_num [epsilon_to_compare_gap]⟩
  rw [h]
  norm_num [computeGap, abs_of_nonneg]

/-- Claim C2: for every snapshot with a solution, the gap computation
never divides by zero: when `best_obj = 0` the gap is `+infinity`, and
otherwise the gap is `|best_obj - best_bound|` divided by
`max (1e-10) |best_obj|`, whose denominator is strictly positive. -/
theorem computeGap_no_div_by_zero (obj bnd : ℚ) :
    (obj = 0 → computeGap obj bnd = EFloat.inf) ∧
    (obj ≠ 0 →
      0 < max ((1:ℚ) / 10 ^ 10) |obj| ∧
      computeGap obj bnd =
        EFloat.fin (|obj - bnd| / max (1 / 10 ^ 10) |obj|)) := by
  constructor
  · intro h
    simp [computeGap, h]
  · intro h
    refine ⟨?_, by simp [computeGap, h]⟩
    have h10 : (0:ℚ) < 1 / 10 ^ 10 := by norm_num
    exact lt_of_lt_of_le h10 (le_max_left _ _)

theorem computeGap_no_div_by_zero_witness :
    computeGap 0 5 = EFloat.inf ∧
    (0 < max ((1:ℚ) / 10 ^ 10) |(2:ℚ)| ∧
      computeGap 2 1 = EFloat.fin (|(2:ℚ) - 1| / max (1 / 10 ^ 10) |(2:ℚ)|)) :=
  ⟨(computeGap_no_div_by_zero 0 5).1 rfl,
   (computeGap_no_div_by_zero 2 1).2 (by norm_num)⟩

/-- Claim C3, counterexample: the first evaluate call with a solution but
`best_obj = 0` returns CONTINUE and records the time, yet leaves
`last_gap = +infinity`, so the monitor does NOT move to the TRACKING state
(the next snapshot with a solution takes the first-solution branch
again). -/
theorem first_solution_zero_obj_not_tracking :
    callback GWhere.MIP ⟨1, 5, 0⟩ 0 CallbackData.init =
      some ({ last_gap_change_time := some 0, last_gap := EFloat.inf },
            Decision.CONTINUE) ∧
    ¬ isTracking { last_gap_change_time := some 0,
                   last_gap := EFloat.inf } := by
  constructor
  · norm_num [callback, computeGap, CallbackData.init]
  · simp [isTracking]

/-- Claim C3, amended: the first evaluate call on a snapshot with
`solutionCount > 0` (while `last_gap` is still `+infinity`) returns
CONTINUE, sets `last_gap` to the computed gap and the improvement time to
`now`; the state machine moves to TRACKING exactly when the computed gap
is finite, i.e. when `best_obj ≠ 0`. -/
theorem first_solution_continue_tracking_iff (snap : Snapshot) (now : ℚ)
    (st : CallbackData) (hsol : 0 < snap.solcount)
    (hg : st.last_gap = EFloat.inf) :
    callback GWhere.MIP snap now st =
      some ({ last_gap_change_time := some now,
              last_gap := computeGap snap.best_obj snap.best_bound },
            Decision.CONTINUE) ∧
    (isTracking { last_gap_change_time := some now,
                  last_gap := computeGap snap.best_obj snap.best_bound } ↔
      snap.best_obj ≠ 0) := by
  have hs0 : snap.solcount ≠ 0 := by omega
  refine ⟨callback_first_solution snap now st hs0 hg, ?_⟩
  simp [isTracking, computeGap_eq_inf_iff]

theorem first_solution_continue_tracking_iff_witness :
    callback GWhere.MIP ⟨1, 0, 1⟩ 0 CallbackData.init =
      some ({ last_gap_change_time := some 0, last_gap := computeGap 1 0 },
            Decision.CONTINUE) ∧
    (isTracking { last_gap_change_time := some 0,
                  last_gap := computeGap 1 0 } ↔ (1:ℚ) ≠ 0) :=
  first_solution_continue_tracking_iff ⟨1, 0, 1⟩ 0 CallbackData.init
    (by norm_num) rfl

/-- Claim C4: every evaluate call on a snapshot with `solutionCount = 0`
returns CONTINUE and leaves the state unchanged. -/
theorem solcount_zero_continue (w : GWhere) (snap : Snapshot) (now : ℚ)
    (st : CallbackData) (h : snap.solcount = 0) :
    callback w snap now st = some (st, Decision.CONTINUE) := by
  cases w with
  | MIP => exact callback_no_solution snap now st h
  | other => exact callback_not_mip snap now st

theorem solcount_zero_continue_witness :
    callback GWhere.MIP ⟨0, 3, 7⟩ 2 CallbackData.init =
      some (CallbackData.init, Decision.CONTINUE) :=
  solcount_zero_continue GWhere.MIP ⟨0, 3, 7⟩ 2 CallbackData.init rfl

/-- Claim C5, counterexample: with the configured threshold `1e-4` and
stall budget `15`, after gap `0.10` at `t = 0` and gap `0.095` at `t = 5`,
the call with gap `0.0949` at `t = 20` returns CONTINUE, not TERMINATE:
the improvement `0.0001` is not greater than the threshold, and the
elapsed time `20 - 5 = 15` is not strictly greater than `15`. -/
theorem scenario_t20_returns_continue :
    runCallback [⟨GWhere.MIP, scenarioSnap1, 0⟩, ⟨GWhere.MIP, scenarioSnap2, 5⟩]
        CallbackData.init =
      some { last_gap_change_time := some 5, last_gap := EFloat.fin (19/200) } ∧
    callback GWhere.MIP scenarioSnap3 20
        { last_gap_change_time := some 5, last_gap := EFloat.fin (19/200) } =
      some ({ last_gap_change_time := some 5, last_gap := EFloat.fin (19/200) },
            Decision.CONTINUE) ∧
    Decision.CONTINUE ≠ Decision.TERMINATE := by
  refine ⟨?_, ?_, by simp⟩
  · norm_num [runCallback, callback, computeGap, EFloat.subGT,
      EFloat.fin_ne_inf, epsilon_to_compare_gap, max_time_between_gap_updates,
      CallbackData.init, scenarioSnap1, scenarioSnap2, abs_of_nonneg]
  · norm_num [callback, computeGap, EFloat.subGT, EFloat.fin_ne_inf,
      epsilon_to_compare_gap, max_time_between_gap_updates, scenarioSnap3,
      abs_of_nonneg]

/-- Claim C5, amended: in the scenario above, the `t = 20` call returns
CONTINUE, because exactly `maxStallDuration` has elapsed and the code's
check is strict; the same non-improving snapshot returns TERMINATE at
every time strictly later than `t = 20`. -/
theorem scenario_terminate_strictly_after (t : ℚ) (ht : 20 < t) :
    runCallback [⟨GWhere.MIP, scenarioSnap1, 0⟩, ⟨GWhere.MIP, scenarioSnap2, 5⟩]
        CallbackData.init =
      some { last_gap_change_time := some 5, last_gap := EFloat.fin (19/200) } ∧
    callback GWhere.MIP scenarioSnap3 20
        { last_gap_change_time := some 5, last_gap := EFloat.fin (19/200) } =
      some ({ last_gap_change_time := some 5, last_gap := EFloat.fin (19/200) },
            Decision.CONTINUE) ∧
    callback GWhere.MIP scenarioSnap3 t
        { last_gap_change_time := some 5, last_gap := EFloat.fin (19/200) } =
      some ({ last_gap_change_time := some 5, last_gap := EFloat.fin (19/200) },
            Decision.TERMINATE) := by
  have hni : EFloat.subGT (EFloat.fin (19/200))
      (computeGap scenarioSnap3.best_obj scenarioSnap3.best_bound)
      epsilon_to_compare_gap = false := by
    norm_num [computeGap, EFloat.subGT, epsilon_to_compare_gap,
      scenarioSnap3, abs_of_nonneg]
  refine ⟨?_, ?_, ?_⟩
  · norm_num [runCallback, callback, computeGap, EFloat.subGT,
      EFloat.fin_ne_inf, epsilon_to_compare_gap, max_time_between_gap_updates,
      CallbackData.init, scenarioSnap1, scenarioSnap2, abs_of_nonneg]
  · norm_num [callback, computeGap, EFloat.subGT, EFloat.fin_ne_inf,
      epsilon_to_compare_gap, max_time_between_gap_updates, scenarioSnap3,
      abs_of_nonneg]
  · rw [callback_stall_check scenarioSnap3 t 5 _
        (by norm_num [scenarioSnap3]) (by simp [EFloat.fin_ne_inf]) hni rfl]
    rw [if_pos (by simp only [max_time_between_gap_updates]; linarith)]

theorem scenario_terminate_strictly_after_witness :
    runCallback [⟨GWhere.MIP, scenarioSnap1, 0⟩, ⟨GWhere.MIP, scenarioSnap2, 5⟩]
        CallbackData.init =
      some { last_gap_change_time := some 5, last_gap := EFloat.fin (19/200) } ∧
    callback GWhere.MIP scenarioSnap3 20
        { last_gap_change_time := some 5, last_gap := EFloat.fin (19/200) } =
      some ({ last_gap_change_time := some 5, last_gap := EFloat.fin (19/200) },
            Decision.CONTINUE) ∧
    callback GWhere.MIP scenarioSnap3 21
        { last_gap_change_time := some 5, last_gap := EFloat.fin (19/200) } =
      some ({ last_gap_change_time := some 5, last_gap := EFloat.fin (19/200) },
            Decision.TERMINATE) :=
  scenario_terminate_strictly_after 21 (by norm_num)

/-- Claim C6, counterexample: in a run with a fixed gap `0.10` and no
improvement, the calls at `t = 16` and `t = 17` (both past the 15-second
stall budget measured from `t = 0`) BOTH return TERMINATE: TERMINATE is
not returned exactly once over this sequence of calls. -/
theorem stalled_terminate_twice :
    callback GWhere.MIP stallSnap 0 CallbackData.init =
      some ({ last_gap_change_time := some 0, last_gap := EFloat.fin (1/10) },
            Decision.CONTINUE) ∧
    callback GWhere.MIP stallSnap 16
        { last_gap_change_time := some 0, last_gap := EFloat.fin (1/10) } =
      some ({ last_gap_change_time := some 0, last_gap := EFloat.fin (1/10) },
            Decision.TERMINATE) ∧
    callback GWhere.MIP stallSnap 17
        { last_gap_change_time := some 0, last_gap := EFloat.fin (1/10) } =
      some ({ last_gap_change_time := some 0, last_gap := EFloat.fin (1/10) },
            Decision.TERMINATE) := by
  refine ⟨?_, ?_, ?_⟩ <;>
    norm_num [callback, computeGap, EFloat.subGT, EFloat.fin_ne_inf,
      epsilon_to_compare_gap, max_time_between_gap_updates,
      CallbackData.init, stallSnap, abs_of_nonneg]

/-- Claim C6, amended: given a fixed non-improving gap, every call made
while at most `maxStallDuration` has elapsed since the last improvement
returns CONTINUE with the state unchanged, and every call made strictly
after `maxStallDuration` has elapsed returns TERMINATE (also with the
state unchanged) — so TERMINATE is returned exactly once only because the
caller stops calling after the first TERMINATE. -/
theorem nonimproving_continue_then_terminate (snap : Snapshot)
    (now g q t0 : ℚ) (hsol : 0 < snap.solcount)
    (hgap : computeGap snap.best_obj snap.best_bound = EFloat.fin q)
    (hni : g - q ≤ epsilon_to_compare_gap) :
    (now - t0 ≤ max_time_between_gap_updates →
      callback GWhere.MIP snap now
          { last_gap_change_time := some t0, last_gap := EFloat.fin g } =
        some ({ last_gap_change_time := some t0, last_gap := EFloat.fin g },
              Decision.CONTINUE)) ∧
    (max_time_between_gap_updates < now - t0 →
      callback GWhere.MIP snap now
          { last_gap_change_time := some t0, last_gap := EFloat.fin g } =
        some ({ last_gap_change_time := some t0, last_gap := EFloat.fin g },
              Decision.TERMINATE)) := by
  have hs0 : snap.solcount ≠ 0 := by omega
  have hsub : EFloat.subGT (EFloat.fin g)
      (computeGap snap.best_obj snap.best_bound)
      epsilon_to_compare_gap = false := by
    rw [hgap]
    simp only [EFloat.subGT, decide_eq_false_iff_not, not_lt]
    linarith
  constructor
  · intro h
    rw [callback_no_improvement snap now g t0 _ hs0 rfl rfl hsub,
      if_neg (not_lt.mpr h)]
  · intro h
    rw [callback_no_improvement snap now g t0 _ hs0 rfl rfl hsub, if_pos h]

theorem nonimproving_continue_then_terminate_witness :
    callback GWhere.MIP stallSnap 5
        { last_gap_change_time := some 0, last_gap := EFloat.fin (1/10) } =
      some ({ last_gap_change_time := some 0, last_gap := EFloat.fin (1/10) },
            Decision.CONTINUE) ∧
    callback GWhere.MIP stallSnap 16
        { last_gap_change_time := some 0, last_gap := EFloat.fin (1/10) } =
      some ({ last_gap_change_time := some 0, last_gap := EFloat.fin (1/10) },
            Decision.TERMINATE) := by
  constructor
  · exact (nonimproving_continue_then_terminate stallSnap 5 (1/10) (1/10) 0
      (by norm_num [stallSnap])
      (by norm_num [stallSnap, computeGap, abs_of_nonneg])
      (by norm_num [epsilon_to_compare_gap])).1
      (by norm_num [max_time_between_gap_updates])
  · exact (nonimproving_continue_then_terminate stallSnap 16 (1/10) (1/10) 0
      (by norm_num [stallSnap])
      (by norm_num [stallSnap, computeGap, abs_of_nonneg])
      (by norm_num [epsilon_to_compare_gap])).2
      (by norm_num [max_time_between_gap_updates])

/-- Claim C7: across any sequence of callback invocations, `last_gap` is
monotonically non-increasing (in the order with `+infinity` on top): no
call ever increases it. -/
theorem runCallback_last_gap_mono (inputs : List CallInput)
    (st st' : CallbackData) (h : runCallback inputs st = some st') :
    EFloat.le st'.last_gap st.last_gap := by
  induction inputs generalizing st with
  | nil =>
      simp only [runCallback, Option.some.injEq] at h
      rw [← h]
      exact EFloat.le_refl _
  | cons i is ih =>
      simp only [runCallback] at h
      cases hc : callback i.w i.snap i.now st with
      | none => rw [hc] at h; exact absurd h (by simp)
      | some p =>
          obtain ⟨st1, d⟩ := p
          rw [hc] at h
          exact EFloat.le_trans st'.last_gap st1.last_gap st.last_gap
            (ih st1 h) (callback_last_gap_le i.w i.snap i.now st st1 d hc)

theorem runCallback_last_gap_mono_witness :
    EFloat.le
      (CallbackData.mk (some 0) (EFloat.fin (1/10))).last_gap
      CallbackData.init.last_gap :=
  runCallback_last_gap_mono [⟨GWhere.MIP, stallSnap, 0⟩] CallbackData.init
    ⟨some 0, EFloat.fin (1/10)⟩
    (by norm_num [runCallback, callback, computeGap, CallbackData.init,
      stallSnap, abs_of_nonneg])

/-- Claim C8: in every run from the initial state whose snapshots all have
`solutionCount ≥ 0`, the final `last_gap_change_time` is set if and only
if at least one MIP snapshot with `solutionCount > 0` was observed. -/
theorem time_set_iff_positive_snap (inputs : List CallInput)
    (st' : CallbackData)
    (hval : ∀ i ∈ inputs, 0 ≤ i.snap.solcount)
    (hrun : runCallback inputs CallbackData.init = some st') :
    st'.last_gap_change_time ≠ none ↔
      ∃ i ∈ inputs, i.w = GWhere.MIP ∧ 0 < i.snap.solcount := by
  induction inputs with
  | nil =>
      simp only [runCallback, Option.some.injEq] at hrun
      rw [← hrun]
      simp [CallbackData.init]
  | cons i is ih =>
      by_cases hp : i.w = GWhere.MIP ∧ 0 < i.snap.solcount
      · obtain ⟨hw, hpos⟩ := hp
        have hs0 : i.snap.solcount ≠ 0 := by omega
        have hcall : callback i.w i.snap i.now CallbackData.init =
            some ({ last_gap_change_time := some i.now,
                    last_gap := computeGap i.snap.best_obj i.snap.best_bound },
                  Decision.CONTINUE) := by
          rw [hw]
          exact callback_first_solution _ _ _ hs0 rfl
        simp only [runCallback, hcall] at hrun
        have hset : st'.last_gap_change_time ≠ none :=
          runCallback_time_preserved is _ st' hrun (by simp)
        exact iff_of_true hset ⟨i, List.mem_cons_self i is, hw, hpos⟩
      · have hcall := callback_init_not_pos i
          (hval i (List.mem_cons_self i is)) hp
        simp only [runCallback, hcall] at hrun
        rw [ih (fun j hj => hval j (List.mem_cons_of_mem i hj)) hrun]
        constructor
        · rintro ⟨j, hj, hjP⟩
          exact ⟨j, List.mem_cons_of_mem i hj, hjP⟩
        · rintro ⟨j, hj, hjP⟩
          rcases List.mem_cons.mp hj with rfl | hj'
          · exact absurd hjP hp
          · exact ⟨j, hj', hjP⟩

theorem time_set_iff_positive_snap_witness :
    (CallbackData.mk (some 0) (EFloat.fin (1/10))).last_gap_change_time ≠ none ↔
      ∃ i ∈ [CallInput.mk GWhere.MIP stallSnap 0],
        i.w = GWhere.MIP ∧ 0 < i.snap.solcount :=
  time_set_iff_positive_snap [⟨GWhere.MIP, stallSnap, 0⟩]
    ⟨some 0, EFloat.fin (1/10)⟩
    (by
      rintro i hi
      simp only [List.mem_singleton] at hi
      subst hi
      norm_num [stallSnap])
    (by norm_num [runCallback, callback, computeGap, CallbackData.init,
      stallSnap, abs_of_nonneg])

/-- Claim C9, counterexample: a snapshot with negative `solutionCount`
(invalid per the specification) is NOT rejected: the callback runs the
gap logic, updates the state and returns CONTINUE. -/
theorem negative_solcount_updates_state :
    callback GWhere.MIP ⟨-1, 0, 1⟩ 0 CallbackData.init =
      some ({ last_gap_change_time := some 0, last_gap := EFloat.fin 1 },
            Decision.CONTINUE) ∧
    ({ last_gap_change_time := some 0, last_gap := EFloat.fin 1 } :
        CallbackData) ≠ CallbackData.init := by
  constructor
  · norm_num [callback, computeGap, CallbackData.init, abs_of_nonneg]
  · simp [CallbackData.init]

/-- Claim C9, amended: the callback performs no snapshot validation; a
snapshot with negative `solutionCount` is processed exactly as if it had
`solutionCount = 1` (only `solutionCount = 0` short-circuits). -/
theorem negative_solcount_behaves_as_positive (snap : Snapshot) (now : ℚ)
    (st : CallbackData) (hneg : snap.solcount < 0) :
    callback GWhere.MIP snap now st =
      callback GWhere.MIP
        { solcount := 1, best_bound := snap.best_bound,
          best_obj := snap.best_obj } now st := by
  have h1 : snap.solcount ≠ 0 := by omega
  simp [callback, h1]

theorem negative_solcount_behaves_as_positive_witness :
    callback GWhere.MIP ⟨-1, 0, 1⟩ 0 CallbackData.init =
      callback GWhere.MIP ⟨1, 0, 1⟩ 0 CallbackData.init :=
  negative_solcount_behaves_as_positive ⟨-1, 0, 1⟩ 0 CallbackData.init
    (by norm_num)

/-- Claim C10: whenever the callback decides TERMINATE it leaves the state
unchanged, and the same snapshot at any later (or equal) time again
decides TERMINATE. -/
theorem terminate_frame_and_repeat (w : GWhere) (snap : Snapshot)
    (now : ℚ) (st st' : CallbackData)
    (h : callback w snap now st = some (st', Decision.TERMINATE)) :
    st' = st ∧ ∀ t, now ≤ t →
      callback w snap t st = some (st, Decision.TERMINATE) := by
  cases w with
  | other =>
      rw [callback_not_mip] at h
      simp at h
  | MIP =>
      by_cases hsol : snap.solcount = 0
      · rw [callback_no_solution _ _ _ hsol] at h
        simp at h
      · by_cases hg : st.last_gap = EFloat.inf
        · rw [callback_first_solution _ _ _ hsol hg] at h
          simp at h
        · cases hsub : EFloat.subGT st.last_gap
            (computeGap snap.best_obj snap.best_bound)
            epsilon_to_compare_gap with
          | true =>
              rw [callback_subGT_true _ _ _ hsol hg hsub] at h
              simp at h
          | false =>
              cases htime : st.last_gap_change_time with
              | none =>
                  rw [callback_time_none _ _ _ hsol hg hsub htime] at h
                  exact absurd h (by simp)
              | some t0 =>
                  rw [callback_stall_check _ _ _ _ hsol hg hsub htime] at h
                  by_cases hc : max_time_between_gap_updates < now - t0
                  · rw [if_pos hc] at h
                    simp only [Option.some.injEq, Prod.mk.injEq] at h
                    refine ⟨h.1.symm, ?_⟩
                    intro t htle
                    rw [callback_stall_check _ _ _ _ hsol hg hsub htime,
                      if_pos (by linarith)]
                  · rw [if_neg hc] at h
                    simp at h

theorem terminate_frame_and_repeat_witness :
    callback GWhere.MIP stallSnap 17
        { last_gap_change_time := some 0, last_gap := EFloat.fin (1/10) } =
      some ({ last_gap_change_time := some 0, last_gap := EFloat.fin (1/10) },
            Decision.TERMINATE) := by
  have h := terminate_frame_and_repeat GWhere.MIP stallSnap 16
    ⟨some 0, EFloat.fin (1/10)⟩ ⟨some 0, EFloat.fin (1/10)⟩
    (by norm_num [callback, computeGap, EFloat.subGT, EFloat.fin_ne_inf,
      epsilon_to_compare_gap, max_time_between_gap_updates, stallSnap,
      abs_of_nonneg])
  exact h.2 17 (by norm_num)
